import Mathlib

/-!
Verification development for the "Music Video Downloader" application.

The definitions below are a shallow embedding of the selection pipeline of
`Music Video Downloader.pyw`: the candidate filter/score/select function
`_worker_filter_and_select`, the filename sanitizer
`_worker_sanitize_filename`, the search-result classification of
`_worker_search_videos`, the per-item control flow of `worker_thread_main`,
and the review-queue loop (`_process_next_review_item`,
`process_single_review_item`, the review branch of `stop_processing`).

Modelling conventions:
* Python strings are Lean `String`s; `str.lower()` is modelled as an
  ASCII lowering (`pyLower`), which agrees with Python on all the ASCII
  keyword comparisons the program performs.
* Python `needle in hay` on strings is `pyIn`.
* Python truthiness of an optional string (`if x:` where `x` is `None` or a
  `str`) is `optStrTruthy`; of a plain string, `strTruthy`.
* Raw search-result records (`dict`s parsed from yt-dlp JSON) are modelled
  as `RawVideo`, with each accessed field either absent (`none`, which also
  stands for a present-but-non-string value, collapsed to the same default
  by the source) or a present value.
* Numeric fields (`duration`, `view_count`) are integers; Python truthiness
  of a number (`if duration:`) is "present and nonzero".
-/

/-- Python `needle in hay` for lists of characters: `needle` occurs as a
contiguous sublist of `hay` (the empty needle always occurs). -/
def listSub (needle : List Char) : List Char → Bool
  | [] => needle.isEmpty
  | c :: rest => needle.isPrefixOf (c :: rest) || listSub needle rest

/-- Python `needle in hay` on strings. -/
def pyIn (needle hay : String) : Bool := listSub needle.toList hay.toList

/-- Model of Python `str.lower()` (ASCII lowering; all keywords the program
compares against are ASCII). -/
def pyLower (s : String) : String := ⟨s.toList.map Char.toLower⟩

/-- Python truthiness of a string: nonempty. -/
def strTruthy (s : String) : Bool := !(s == "")

/-- Python truthiness of an optional string (`None` and `""` are falsy). -/
def optStrTruthy : Option String → Bool
  | none => false
  | some s => strTruthy s

/-- One entry of a raw record's `thumbnails` list: `thumb.get('url')`. -/
structure Thumb where
  url : Option String := none
deriving DecidableEq

/-- A raw yt-dlp search result record, restricted to the fields the program
reads. `none` models an absent key (or a present non-string value, which the
source collapses to the same default). -/
structure RawVideo where
  id : Option String := none
  title : Option String := none
  channel : Option String := none
  uploader : Option String := none
  uploader_id : Option String := none
  channel_is_verified : Bool := false
  duration : Option Int := none
  view_count : Option Int := none
  webpage_url : Option String := none
  thumbnail : Option String := none
  thumbnails : Option (List Thumb) := none
  description : Option String := none
deriving DecidableEq

/-- `video.get('title')` collapsed to `''` when absent/non-string. -/
def effTitle (v : RawVideo) : String := v.title.getD ""

/-- `video.get('channel', video.get('uploader'))` collapsed to `''` when
absent/non-string. -/
def effChannel (v : RawVideo) : String :=
  match v.channel with
  | some c => c
  | none => v.uploader.getD ""

/-- `uploader_id.lower()` when present, else `''`. -/
def effUploaderId (v : RawVideo) : String := v.uploader_id.getD ""

/-- The candidate score slot: an integer in the scoring path, the string
sentinel `'N/A'` in the override / no-trust paths. -/
inductive Score where
  | na
  | val (n : Int)
deriving DecidableEq

/-- A candidate dict as built by `_worker_filter_and_select`. -/
structure Candidate where
  id : Option String
  title : String
  channel : String
  duration : Option Int
  url : String
  score : Score
  views : Option Int
  thumbnail : Option String
deriving DecidableEq

/-- `negative_keywords` (lines 189-195 of the source). -/
def negativeKeywords : List String :=
  ["lyric", "cover", "remix", "live", "reaction", "audio only", "visualizer",
   "fan cam", "instrumental", "karaoke", "parody", "chipmunk", "slowed",
   "reverb", "bass boosted", "tutorial", "lesson", "interview", "teaser",
   "trailer", "album version", "full album", "topic", "provided to youtube by",
   "8d audio", "nightcore", "extended", "mashup", "megamix", "clean"]

/-- `positive_keywords`. -/
def positiveKeywords : List String := ["official music video", "official video"]

/-- The description phrases checked at line 260. -/
def descriptionNegatives : List String :=
  ["lyrics in description", "fan-made", "unofficial"]

/-- The thumbnail resolution of the scoring/override loop (lines 239-246):
prefer the last entry's url; if falsy, scan in reverse for the first truthy
url (breaking out of the thumbnail loop only); if still falsy, fall back to
the top-level `thumbnail` field. -/
def loopRevThumb : List Thumb → Option String
  | [] => none
  | [t] => t.url
  | t :: ts => if optStrTruthy t.url then t.url else loopRevThumb ts

/-- Full thumbnail resolution for the scoring/override loop. -/
def resolveThumb (v : RawVideo) : Option String :=
  let fromList : Option String :=
    match v.thumbnails with
    | some (t :: ts) =>
      let lastU := match (t :: ts).getLast? with
        | some th => th.url
        | none => none
      if optStrTruthy lastU then lastU else loopRevThumb ((t :: ts).reverse)
    | _ => none
  if optStrTruthy fromList then fromList else v.thumbnail

/-- `video.get('webpage_url', f"...watch?v={id}" if id else '#')`. -/
def resolveUrl (v : RawVideo) : String :=
  match v.webpage_url with
  | some u => u
  | none =>
    match v.id with
    | some i => if strTruthy i then "https://www.youtube.com/watch?v=" ++ i else "#"
    | none => "#"

/-- Builds the candidate dict the function appends (same fields in every
branch; the thumbnail value differs between the no-trust branch and the
scoring/override branch, so it is a parameter). -/
def mkCandidate (v : RawVideo) (sc : Score) (thumb : Option String) : Candidate :=
  { id := v.id, title := effTitle v, channel := effChannel v,
    duration := v.duration, url := resolveUrl v, score := sc,
    views := v.view_count, thumbnail := thumb }

/-- The candidate built in the override path (score `'N/A'`, correct
thumbnail scan). -/
def overrideCandidate (v : RawVideo) : Candidate :=
  mkCandidate v Score.na (resolveThumb v)

/-- Python return value of `_worker_filter_and_select`: `None`, a plain
string (a selected video id, as returned by `.get('id')`, possibly empty),
or the `needs_manual` dict. -/
inductive FilterResult where
  | pyNone
  | pyStr (s : String)
  | needsManual (reason : String) (candidates : List Candidate)
      (artist title : String)
deriving DecidableEq

/-- The scoring of one video (lines 258-277), returning
`(score, is_negative)`. Transcribed step by step from the source; each
sequential `score +=`/`score -=` update becomes the addition of that
step's contribution, and the `is_negative` updates are mirrored as
written. -/
def scoreVideo (v : RawVideo) (artistLower titleLower : String) : Int × Bool :=
  let vidTitleLower := pyLower (effTitle v)
  let channelLower := pyLower (effChannel v)
  let uploaderId := pyLower (effUploaderId v)
  let description := match v.description with
    | some d => pyLower d
    | none => ""
  let negHit := negativeKeywords.any (fun k => pyIn k vidTitleLower)
  let posHit := positiveKeywords.any (fun k => pyIn k vidTitleLower)
  -- line 259: score -= (5 if a positive phrase is present else 20)
  let score1 : Int := if negHit then 0 - (if posHit then 5 else 20) else 0
  let isNeg1 := negHit
  -- line 260: score -= 5 when a description phrase hits a non-negative item
  let descCond := !isNeg1 && strTruthy description &&
    descriptionNegatives.any (fun k => pyIn k description)
  let score2 := score1 - (if descCond then 5 else 0)
  let isNeg2 := if descCond then true else isNeg1
  -- line 261: score += 10
  let score3 := score2 + (if posHit then 10 else 0)
  -- lines 262-264: score += 8 / += 5 / -= 5
  let score4 := score3 +
    (if channelLower == artistLower || pyIn "official" channelLower ||
        pyIn "vevo" channelLower || pyIn "vevo" uploaderId then (8 : Int)
     else if pyIn artistLower channelLower then 5
     else if pyIn "topic" channelLower ||
        pyIn "various artists" channelLower then -5
     else 0)
  -- lines 265-267: score += 4 / += 2
  let hasArtist := pyIn artistLower vidTitleLower
  let hasTitle := pyIn titleLower vidTitleLower
  let score5 := score4 +
    (if hasArtist && hasTitle then (4 : Int) else if hasTitle then 2 else 0)
  -- lines 268-272: score += 3 / += 2 / += 1 under `if view_count:`
  let score6 := score5 +
    (match v.view_count with
     | some vc =>
       if vc ≠ 0 then
         if vc > 10000000 then (3 : Int)
         else if vc > 1000000 then 2
         else if vc > 100000 then 1
         else 0
       else 0
     | none => 0)
  -- line 273: score += 5
  let score7 := score6 + (if v.channel_is_verified then (5 : Int) else 0)
  -- lines 274-277: score -= 2 for each duration bound under `if duration:`
  let score8 := score7 +
    (match v.duration with
     | some d =>
       if d ≠ 0 then
         (if d < 90 then (-2 : Int) else 0) + (if d > 600 then -2 else 0)
       else 0
     | none => 0)
  (score8, isNeg2)

/-- The retention test of line 279: not flagged negative, and the title
contains the target title or the score exceeds 2. -/
def retainVideo (v : RawVideo) (artistLower titleLower : String) : Bool :=
  let r := scoreVideo v artistLower titleLower
  !r.2 && (pyIn titleLower (pyLower (effTitle v)) || r.1 > 2)

/-- The scoring loop (lines 234-281): override requests append every video
with score `'N/A'`; otherwise a video is appended with its integer score
when it passes the retention test. -/
def scoringPass (videos : List RawVideo) (artist title : String)
    (isOverride : Bool) : List Candidate :=
  let artistLower := pyLower artist
  let titleLower := pyLower title
  videos.filterMap (fun v =>
    if isOverride then some (overrideCandidate v)
    else if retainVideo v artistLower titleLower then
      some (mkCandidate v (Score.val (scoreVideo v artistLower titleLower).1)
        (resolveThumb v))
    else none)

/-- The priority test of lines 226-229: positive phrase in the title, an
official-looking channel (channel equals the artist, or the channel contains
"official" or "vevo", or the uploader id contains "vevo", or the channel is
verified), and no disqualifying negative keyword (with "audio only" and
"visualizer" excluded from this check). -/
def qualifiesOfficial (v : RawVideo) (artist : String) : Bool :=
  let artistLower := pyLower artist
  let vidTitleLower := pyLower (effTitle v)
  let channelLower := pyLower (effChannel v)
  let uploaderId := pyLower (effUploaderId v)
  let isOfficialTitle := positiveKeywords.any (fun k => pyIn k vidTitleLower)
  let isOfficialChannel := channelLower == artistLower ||
    pyIn "official" channelLower || pyIn "vevo" channelLower ||
    pyIn "vevo" uploaderId || v.channel_is_verified
  let hasNegative := (negativeKeywords.filter
      (fun k => !(k == "audio only") && !(k == "visualizer"))).any
    (fun k => pyIn k vidTitleLower)
  isOfficialTitle && isOfficialChannel && !hasNegative

/-- The priority scan (lines 220-231): first qualifying video with a truthy
id is returned; a qualifying video with a falsy id is skipped. -/
def priorityScan (videos : List RawVideo) (artist : String) : Option String :=
  match videos with
  | [] => none
  | v :: rest =>
    if qualifiesOfficial v artist then
      match v.id with
      | some i => if strTruthy i then some i else priorityScan rest artist
      | none => priorityScan rest artist
    else priorityScan rest artist

/-- One iteration of the no-trust loop (lines 201-214). Returns `none` when
the stray `break` at line 209 fires: the last thumbnail entry's url is falsy
while the first entry's url (the final value of the inner full scan) is
truthy, which exits the enclosing `for video in videos` loop before the
current candidate is appended. Otherwise returns the candidate built from
this video. -/
def noTrustStep (v : RawVideo) : Option Candidate :=
  match v.thumbnails with
  | some (t :: ts) =>
    let lastU := match (t :: ts).getLast? with
      | some th => th.url
      | none => none
    if optStrTruthy lastU then some (mkCandidate v Score.na lastU)
    else if optStrTruthy t.url then none
    else some (mkCandidate v Score.na v.thumbnail)
  | _ => some (mkCandidate v Score.na v.thumbnail)

/-- The no-trust collection loop: stops (dropping the current and all later
videos) when `noTrustStep` signals the stray break. -/
def noTrustCollect : List RawVideo → List Candidate
  | [] => []
  | v :: vs =>
    match noTrustStep v with
    | none => []
    | some c => c :: noTrustCollect vs

/-- The no-trust branch (lines 199-216). -/
def noTrustBranch (videos : List RawVideo) (artist title : String) :
    FilterResult :=
  let candidates := noTrustCollect videos
  if candidates.isEmpty then FilterResult.pyNone
  else FilterResult.needsManual "select" candidates artist title

/-- Sort key used at line 286 (`key=lambda x: x['score']`); `'N/A'` never
occurs in the sorted (non-override) path. -/
def scoreKey (c : Candidate) : Int :=
  match c.score with
  | Score.val n => n
  | Score.na => 0

/-- Stable insertion into a descending-by-score list: the new element goes
after every existing element with a score at least as large. -/
def insertDesc (c : Candidate) : List Candidate → List Candidate
  | [] => [c]
  | d :: ds => if scoreKey d ≥ scoreKey c then d :: insertDesc c ds
    else c :: d :: ds

/-- The stable descending sort of line 286
(`candidates.sort(key=..., reverse=True)`). -/
def sortByScoreDesc (cs : List Candidate) : List Candidate :=
  cs.foldl (fun acc c => insertDesc c acc) []

/-- `candidates[0].get('id')` as returned at lines 287-288: a missing id
yields Python `None`. -/
def idResult (c : Candidate) : FilterResult :=
  match c.id with
  | some i => FilterResult.pyStr i
  | none => FilterResult.pyNone

/-- Lines 283-296: the decision on the collected candidate list. Override
requests skip the sort and the auto-select tests and escalate with reason
`override`; otherwise the list is sorted descending by score and
auto-selected when a lone candidate scores at least 8, or the top candidate
beats the runner-up by at least 7 with a top score of at least 12. -/
def scoredDecision (candidates : List Candidate) (isOverride : Bool)
    (artist title : String) : FilterResult :=
  if candidates.isEmpty then FilterResult.pyNone
  else if isOverride then
    FilterResult.needsManual "override" candidates artist title
  else
    match sortByScoreDesc candidates with
    | [] => FilterResult.pyNone
    | [c] =>
      if scoreKey c ≥ 8 then idResult c
      else FilterResult.needsManual "select" [c] artist title
    | c0 :: c1 :: rest =>
      if scoreKey c0 ≥ scoreKey c1 + 7 && scoreKey c0 ≥ 12 then idResult c0
      else FilterResult.needsManual "select" (c0 :: c1 :: rest) artist title

/-- `_worker_filter_and_select` (lines 179-296). The `gui_queue` parameter
of the source is used only for logging and is omitted. -/
def filterAndSelect (videos : List RawVideo) (artist title : String)
    (isOverride noTrust : Bool) : FilterResult :=
  if videos.isEmpty then FilterResult.pyNone
  else if noTrust then noTrustBranch videos artist title
  else
    match (if isOverride then none else priorityScan videos artist) with
    | some i => FilterResult.pyStr i
    | none =>
      scoredDecision (scoringPass videos artist title isOverride) isOverride
        artist title

/-! ## Filename sanitization (`_worker_sanitize_filename`, lines 107-116) -/

/-- The characters removed by `re.sub(r'[\\/*?:"<>|]', "", name)`. -/
def illegalChars : List Char := ['\\', '/', '*', '?', ':', '\"', '<', '>', '|']

/-- `re.sub(r'\.+', '.', s)`: collapse every run of dots to a single dot. -/
def collapseDots : List Char → List Char
  | [] => []
  | [c] => [c]
  | a :: b :: rest =>
    if a == '.' && b == '.' then collapseDots (b :: rest)
    else a :: collapseDots (b :: rest)

/-- Python `str.strip()` whitespace set (space, tab, newline, return,
vertical tab, form feed). -/
def isPyWhitespace (c : Char) : Bool :=
  c == ' ' || c == '\t' || c == '\n' || c == '\r' ||
  c.toNat == 11 || c.toNat == 12

/-- Strip characters satisfying `p` from both ends. -/
def stripEnds (p : Char → Bool) (l : List Char) : List Char :=
  ((l.dropWhile p).reverse.dropWhile p).reverse

/-- The index of the extension dot per CPython `os.path.splitext` on a name
containing no path separators: the last dot, provided some earlier character
is not a dot (so leading dots never start an extension). -/
def lastDotIdx : List Char → Option Nat
  | [] => none
  | c :: rest =>
    match lastDotIdx rest with
    | some i => some (i + 1)
    | none => if c == '.' then some 0 else none

/-- `os.path.splitext` restricted to names without separators (the
sanitizer removed `/` and `\` before calling it). -/
def splitext (l : List Char) : List Char × List Char :=
  match lastDotIdx l with
  | some d =>
    if (l.take d).any (fun c => !(c == '.')) then (l.take d, l.drop d)
    else (l, [])
  | none => (l, [])

/-- Python `l[:k]` for a possibly negative `k`. -/
def pySliceTo (l : List Char) (k : Int) : List Char :=
  if k ≥ 0 then l.take k.toNat else l.take ((l.length + k).toNat)

/-- `_worker_sanitize_filename` (lines 107-116). -/
def sanitizeFilename (name : String) : String :=
  if !(strTruthy name) then "Untitled"
  else
    let l1 := name.toList.filter (fun c => !(illegalChars.contains c))
    let l2 := collapseDots l1
    let l3 := stripEnds (fun c => c == '.' || c == '-' || c == ' ')
      (stripEnds isPyWhitespace l2)
    let l4 := if l3.isEmpty || l3 == ['.'] then "Untitled".toList else l3
    if l4.length > 200 then
      let be := splitext l4
      let base := pySliceTo be.1 (200 - (be.2.length : Int))
      ⟨base ++ be.2⟩
    else ⟨l4⟩

/-! ## Search-result classification (`_worker_search_videos`, lines 157-176)

The subprocess invocation itself is I/O; what the function contributes to
control flow is how it classifies the invocation's outcome into its Python
return value: `None` (transport failure), `[]`, or a list of parsed
records. `ProcResult` is that outcome (the stop_event early return is not
modelled; the worker claims are stated for runs with no external stop). -/

/-- Outcome of the yt-dlp search subprocess invocation. -/
inductive ProcResult where
  | completed (returncode : Int) (records : List RawVideo)
  | timeoutExpired
  | fileNotFound
  | otherExc
deriving DecidableEq

/-- The return-value classification of `_worker_search_videos`: a nonzero
exit code, a missing executable, or an unexpected exception yield `None`
(transport failure); a timeout yields `[]` (line 175); a zero exit yields
the parsed records. -/
def searchVideos : ProcResult → Option (List RawVideo)
  | ProcResult.completed rc records => if rc == 0 then some records else none
  | ProcResult.timeoutExpired => some []
  | ProcResult.fileNotFound => none
  | ProcResult.otherExc => none

/-! ## Per-item worker control flow (`worker_thread_main`, lines 454-605)

The per-item search/filter/select/download sequence for one work item,
after metadata extraction and the existing-file check have succeeded, and
assuming the stop event is never set externally during the item (the only
modelled interruptions are the `stop_signal`/`quit` decision values, which
set the stop event from inside the flow and break). GUI progress messages
are not modelled; the item's recorded terminal status is. -/

def STATUS_COMPLETE : String := "✅ Complete"
def STATUS_FAILED_SEARCH : String := "❌ No Search Results"
def STATUS_FAILED_FILTER : String := "❌ No Suitable Video"
def STATUS_FAILED_DOWNLOAD : String := "❌ Download Failed"
def STATUS_SKIPPED_MANUAL : String := "⏭️ Skipped (Manual)"
def STATUS_ERROR : String := "🔥 Error"
def STATUS_FAILED_ALL : String := "❌ Exhausted"
def STATUS_NEEDS_REVIEW : String := "⚠️ Needs Review"
def STATUS_REVIEWING : String := "👀 Reviewing..."

/-- A reply on the manual-select queue to an `ask_manual_select` request:
`"stop_signal"`, `"quit"`, `None` (skip), or a video id string. -/
inductive SelectDec where
  | stopSig
  | quitSig
  | skip
  | pick (s : String)
deriving DecidableEq

/-- A reply on the manual-select queue to an `ask_manual_search` request:
`"stop_signal"`, `"quit"`, `"__FILENAME_SEARCH__"`, `None` (cancel), or a
query string. -/
inductive QueryDec where
  | stopSig
  | quitSig
  | filenameSearch
  | cancel
  | query (q : String)
deriving DecidableEq

/-- The environment of one item's run: mode flags, target metadata, and the
responses of the external world (search results per attempt, human
decisions, download success). -/
structure ItemEnv where
  noTrust : Bool
  interactive : Bool
  artist : String
  title : String
  fileBase : String
  respOfficial : Option (List RawVideo)
  respFallback : Option (List RawVideo)
  respOverride : Option (List RawVideo)
  respManual : Option (List RawVideo)
  queryDec : QueryDec
  selectDec : SelectDec
  downloadOk : Bool
deriving DecidableEq

/-- The mutable per-item state of `worker_thread_main` (lines 455-462),
plus a count of `_worker_search_videos` invocations and an `interrupted`
flag standing for a `break` out of the file loop. -/
structure St where
  selected : Option String := none
  needsManual : Bool := false
  reason : String := ""
  cands : List Candidate := []
  searchError : Bool := false
  finalStatus : Option String := none
  videosFound : Bool := false
  searches : Nat := 0
  interrupted : Bool := false
deriving DecidableEq

def initSt : St := {}

/-- Attempt 1 (lines 464-484): official-phrased search, then either the
no-trust forced escalation or the normal filter. -/
def step1 (env : ItemEnv) (st : St) : St :=
  if st.interrupted then st
  else
    match env.respOfficial with
    | none => { st with searchError := true, searches := st.searches + 1 }
    | some vids =>
      let st := { st with searches := st.searches + 1 }
      if vids.isEmpty then st
      else
        let st := { st with videosFound := true }
        if env.noTrust then
          match filterAndSelect vids env.artist env.title true true with
          | FilterResult.needsManual r cs _ _ =>
            { st with needsManual := true, reason := r, cands := cs }
          | _ => { st with finalStatus := some STATUS_FAILED_FILTER }
        else
          match filterAndSelect vids env.artist env.title false false with
          | FilterResult.pyStr s => { st with selected := some s }
          | FilterResult.needsManual r cs _ _ =>
            { st with needsManual := true, reason := r, cands := cs }
          | FilterResult.pyNone => st

/-- Attempt 2 (lines 486-502): fallback plain search, guarded on nothing
having been selected or escalated, no search error, and not no-trust. -/
def step2 (env : ItemEnv) (st : St) : St :=
  if st.interrupted then st
  else if st.selected.isNone && !st.needsManual && !st.searchError &&
      !env.noTrust then
    match env.respFallback with
    | none => { st with searchError := true, searches := st.searches + 1 }
    | some vids =>
      let st := { st with searches := st.searches + 1 }
      if vids.isEmpty then st
      else
        let st := { st with videosFound := true }
        match filterAndSelect vids env.artist env.title false false with
        | FilterResult.pyStr s => { st with selected := some s }
        | FilterResult.needsManual r cs _ _ =>
          { st with needsManual := true, reason := r, cands := cs }
        | FilterResult.pyNone => st
  else st

/-- Attempt 3 (lines 504-548): either the unfiltered override re-search
(when some search returned videos) or, when nothing was ever found, the
interactive manual-search flow / the deferred review enqueue. -/
def step3 (env : ItemEnv) (st : St) : St :=
  if st.interrupted then st
  else if st.selected.isNone && !st.needsManual && !st.searchError &&
      !env.noTrust then
    if st.videosFound then
      match env.respOverride with
      | none => { st with searchError := true, searches := st.searches + 1 }
      | some vids =>
        let st := { st with searches := st.searches + 1 }
        if vids.isEmpty then
          { st with finalStatus := some STATUS_FAILED_SEARCH }
        else
          match filterAndSelect vids env.artist env.title true false with
          | FilterResult.needsManual r cs _ _ =>
            { st with needsManual := true, reason := r, cands := cs }
          | _ => { st with finalStatus := some STATUS_FAILED_FILTER }
    else if env.interactive then
      match env.queryDec with
      | QueryDec.stopSig => { st with interrupted := true }
      | QueryDec.quitSig => { st with interrupted := true }
      | d =>
        let mq : Option String := match d with
          | QueryDec.filenameSearch => some env.fileBase
          | QueryDec.query q => some q
          | _ => none
        match mq with
        | some q =>
          if strTruthy q then
            match env.respManual with
            | none => { st with finalStatus := some STATUS_ERROR }
            | some mvids =>
              let st := { st with searches := st.searches + 1 }
              if mvids.isEmpty then
                { st with finalStatus := some STATUS_FAILED_SEARCH }
              else
                match filterAndSelect mvids env.artist env.title true false with
                | FilterResult.needsManual _ _ _ _ =>
                  match env.selectDec with
                  | SelectDec.stopSig => { st with interrupted := true }
                  | SelectDec.quitSig => { st with interrupted := true }
                  | SelectDec.skip => st
                  | SelectDec.pick s => { st with selected := some s }
                | _ => { st with finalStatus := some STATUS_FAILED_FILTER }
          else { st with finalStatus := some STATUS_SKIPPED_MANUAL }
        | none => { st with finalStatus := some STATUS_SKIPPED_MANUAL }
    else { st with finalStatus := some STATUS_NEEDS_REVIEW }
  else st

/-- The pending-manual-action handler (lines 550-563): in interactive mode
block for a selection decision; in deferred mode enqueue for review. -/
def stepHandler (env : ItemEnv) (st : St) : St :=
  if st.interrupted then st
  else if st.needsManual && st.selected.isNone && st.finalStatus.isNone then
    if env.interactive then
      match env.selectDec with
      | SelectDec.stopSig => { st with interrupted := true }
      | SelectDec.quitSig => { st with interrupted := true }
      | SelectDec.skip => st
      | SelectDec.pick s => { st with selected := some s }
    else { st with finalStatus := some STATUS_NEEDS_REVIEW }
  else st

/-- The item's visible outcome: a recorded terminal status, or an
interrupted loop (stop/quit) that records nothing. -/
inductive ItemOutcome where
  | status (s : String)
  | interrupted
deriving DecidableEq

/-- Final outcome processing (lines 565-598): a truthy selected id is
downloaded (output-directory handling is modelled as succeeding); otherwise
a still-unset final status becomes `Error` after a search error and
`Exhausted` otherwise. -/
def finalize (env : ItemEnv) (st : St) : ItemOutcome :=
  if st.interrupted then ItemOutcome.interrupted
  else if optStrTruthy st.selected then
    ItemOutcome.status
      (if env.downloadOk then STATUS_COMPLETE else STATUS_FAILED_DOWNLOAD)
  else
    match st.finalStatus with
    | some f => ItemOutcome.status f
    | none =>
      ItemOutcome.status
        (if st.searchError then STATUS_ERROR else STATUS_FAILED_ALL)

/-- The state after the three search attempts. -/
def pipe3St (env : ItemEnv) : St := step3 env (step2 env (step1 env initSt))

/-- The state after the manual-action handler. -/
def pipeSt (env : ItemEnv) : St := stepHandler env (pipe3St env)

/-- The full per-item run. -/
def runItem (env : ItemEnv) : ItemOutcome := finalize env (pipeSt env)

/-! ## Review queue (`start_review_phase` / `_process_next_review_item` /
`process_single_review_item` / the review branch of `stop_processing`)

The GUI state relevant to the review loop: the pending `review_list`, the
`is_reviewing` flag, the `current_review_item` slot, and the log of
`update_file_status` calls (most recent first). The dialog interactions and
the download inside `process_single_review_item` are abstracted by a
function giving each entry's resulting final status; that function never
touches `review_list` in the source (lines 1285-1376). -/

/-- A `review_needed` payload queued for later review. -/
structure ReviewEntry where
  filepath : String
  reason : String
  artist : String
  title : String
  candidates : List Candidate
deriving DecidableEq

/-- The review-relevant GUI state. -/
structure ReviewSt where
  reviewList : List ReviewEntry
  isReviewing : Bool
  currentItem : Option ReviewEntry
  statuses : List (String × String)
deriving DecidableEq

/-- `start_review_phase` on a nonempty pending list (lines 1380-1401). -/
def startReview (entries : List ReviewEntry) : ReviewSt :=
  { reviewList := entries, isReviewing := true, currentItem := none,
    statuses := [] }

/-- `_process_next_review_item` up to the suspension point inside
`process_single_review_item`'s dialog: abort if reviewing was stopped,
finish if the list is empty, else pop the head (line 1423), set
`current_review_item` and record the Reviewing status (lines 1287-1293). -/
def beginNextReviewItem (st : ReviewSt) : ReviewSt :=
  if !st.isReviewing then st
  else
    match st.reviewList with
    | [] => { st with isReviewing := false }
    | e :: rest =>
      { st with
        reviewList := rest, currentItem := some e,
        statuses := (e.filepath, STATUS_REVIEWING) :: st.statuses }

/-- The remainder of `process_single_review_item` when it runs to
completion: the dialog/download outcome (abstracted by `dec`) is recorded
as the entry's final status and `current_review_item` is cleared in the
`finally` block (lines 1374-1376). `review_list` is never touched. -/
def finishReviewItem (dec : ReviewEntry → String) (st : ReviewSt) : ReviewSt :=
  match st.currentItem with
  | some e =>
    { st with
      statuses := (e.filepath, dec e) :: st.statuses,
      currentItem := none }
  | none => st

/-- One full, uninterrupted iteration of `_process_next_review_item`. -/
def processNextReviewItem (dec : ReviewEntry → String) (st : ReviewSt) :
    ReviewSt :=
  finishReviewItem dec (beginNextReviewItem st)

/-- The review branch of `stop_processing` (lines 1582-1590), as it runs
while an item is in flight (the worker thread is gone): clear the reviewing
flag, clear the pending list, and mark the in-flight entry (when present
with a truthy filepath) as Skipped (Manual). -/
def stopDuringReview (st : ReviewSt) : ReviewSt :=
  if st.isReviewing then
    let st1 := { st with isReviewing := false, reviewList := [] }
    match st.currentItem with
    | some e =>
      if strTruthy e.filepath then
        { st1 with
          statuses := (e.filepath, STATUS_SKIPPED_MANUAL) :: st1.statuses,
          currentItem := none }
      else st1
    | none => st1
  else st

/-! ## Reference definitions written from the specification's words

These deliberately follow the spec/claim text (not the source); the
refinement theorems below compare them with the embedded code. -/

/-- Spec formula, channel clause as the claims state it: channel equals the
artist, or the channel OR the uploader-id contains "official" or "vevo". -/
def specChannelBonusClaim (v : RawVideo) (artistLower : String) : Int :=
  let channelLower := pyLower (effChannel v)
  let uploaderId := pyLower (effUploaderId v)
  if channelLower == artistLower || pyIn "official" channelLower ||
     pyIn "vevo" channelLower || pyIn "official" uploaderId ||
     pyIn "vevo" uploaderId then 8
  else if pyIn artistLower channelLower then 5
  else if pyIn "topic" channelLower || pyIn "various artists" channelLower then
    -5
  else 0

/-- Amended channel clause, as the code has it: "official"/"vevo" count in
the channel, but only "vevo" counts in the uploader-id. -/
def specChannelBonus (v : RawVideo) (artistLower : String) : Int :=
  let channelLower := pyLower (effChannel v)
  let uploaderId := pyLower (effUploaderId v)
  if channelLower == artistLower || pyIn "official" channelLower ||
     pyIn "vevo" channelLower || pyIn "vevo" uploaderId then 8
  else if pyIn artistLower channelLower then 5
  else if pyIn "topic" channelLower || pyIn "various artists" channelLower then
    -5
  else 0

/-- Title negative-keyword hit (full keyword list). -/
def specNegHit (v : RawVideo) : Bool :=
  negativeKeywords.any (fun k => pyIn k (pyLower (effTitle v)))

/-- Positive phrase in the title. -/
def specPosHit (v : RawVideo) : Bool :=
  positiveKeywords.any (fun k => pyIn k (pyLower (effTitle v)))

/-- Negative-ish phrase in the description. -/
def specDescHit (v : RawVideo) : Bool :=
  match v.description with
  | some d => descriptionNegatives.any (fun k => pyIn k (pyLower d))
  | none => false

/-- Spec negativity flag: a title negative hit, or a description phrase
when not already negative. -/
def specNegFlag (v : RawVideo) : Bool := specNegHit v || specDescHit v

/-- Spec penalty for a title negative hit: -20, softened to -5 when a
positive phrase is also present. -/
def specNegPenalty (v : RawVideo) : Int :=
  if specNegHit v then (if specPosHit v then -5 else -20) else 0

/-- Spec penalty for a description phrase when not already negative. -/
def specDescPenalty (v : RawVideo) : Int :=
  if !specNegHit v && specDescHit v then -5 else 0

/-- Spec bonus for a positive title phrase. -/
def specPosBonus (v : RawVideo) : Int := if specPosHit v then 10 else 0

/-- Spec bonus for artist/title occurring in the video title. -/
def specTitleBonus (v : RawVideo) (artistLower titleLower : String) : Int :=
  let t := pyLower (effTitle v)
  if pyIn artistLower t && pyIn titleLower t then 4
  else if pyIn titleLower t then 2 else 0

/-- Spec view-count tiers. -/
def specViewBonus (v : RawVideo) : Int :=
  match v.view_count with
  | some vc =>
    if vc > 10000000 then 3 else if vc > 1000000 then 2
    else if vc > 100000 then 1 else 0
  | none => 0

/-- Spec verified-channel bonus. -/
def specVerifiedBonus (v : RawVideo) : Int :=
  if v.channel_is_verified then 5 else 0

/-- Duration penalties as the claim literally states them: under 90 seconds
-2, over 600 seconds -2 (a known duration is any present value). -/
def specDurationPenaltyClaim (v : RawVideo) : Int :=
  (match v.duration with
   | some d => if d < 90 then -2 else 0
   | none => 0) +
  (match v.duration with
   | some d => if d > 600 then -2 else 0
   | none => 0)

/-- Amended duration penalties: a zero duration is treated as absent (the
source guards the whole duration block with Python truthiness). -/
def specDurationPenalty (v : RawVideo) : Int :=
  (match v.duration with
   | some d => if d ≠ 0 ∧ d < 90 then -2 else 0
   | none => 0) +
  (match v.duration with
   | some d => if d > 600 then -2 else 0
   | none => 0)

/-- The claim's reference score: the sum of the clauses exactly as the
claim states them. -/
def specScoreClaim (v : RawVideo) (artistLower titleLower : String) : Int :=
  specNegPenalty v + specDescPenalty v + specPosBonus v +
  specChannelBonusClaim v artistLower +
  specTitleBonus v artistLower titleLower + specViewBonus v +
  specVerifiedBonus v + specDurationPenaltyClaim v

/-- The amended reference score (channel clause and zero-duration reading
fixed to match the code; every other clause as the claim states it). -/
def specScoreAmended (v : RawVideo) (artistLower titleLower : String) : Int :=
  specNegPenalty v + specDescPenalty v + specPosBonus v +
  specChannelBonus v artistLower +
  specTitleBonus v artistLower titleLower + specViewBonus v +
  specVerifiedBonus v + specDurationPenalty v

/-- The amended clause sum written with the code's own guard shapes (the
description clause keeps the nonempty-description guard, the duration
clauses keep the nonzero guard); a stepping stone between `scoreVideo` and
`specScoreAmended`. -/
def guardedScoreSum (v : RawVideo) (aL tL : String) : Int :=
  let vidTitleLower := pyLower (effTitle v)
  let channelLower := pyLower (effChannel v)
  let uploaderId := pyLower (effUploaderId v)
  let description := match v.description with
    | some d => pyLower d
    | none => ""
  let negHit := negativeKeywords.any (fun k => pyIn k vidTitleLower)
  let posHit := positiveKeywords.any (fun k => pyIn k vidTitleLower)
  let descCond := !negHit && strTruthy description &&
    descriptionNegatives.any (fun k => pyIn k description)
  (if negHit then (if posHit then (-5 : Int) else -20) else 0) +
  (if descCond then (-5 : Int) else 0) +
  (if posHit then (10 : Int) else 0) +
  (if channelLower == aL || pyIn "official" channelLower ||
      pyIn "vevo" channelLower || pyIn "vevo" uploaderId then (8 : Int)
   else if pyIn aL channelLower then 5
   else if pyIn "topic" channelLower ||
      pyIn "various artists" channelLower then -5
   else 0) +
  (if pyIn aL vidTitleLower && pyIn tL vidTitleLower then (4 : Int)
   else if pyIn tL vidTitleLower then 2
   else 0) +
  (match v.view_count with
   | some vc =>
     if vc ≠ 0 then
       if vc > 10000000 then (3 : Int)
       else if vc > 1000000 then 2
       else if vc > 100000 then 1
       else 0
     else 0
   | none => 0) +
  (if v.channel_is_verified then (5 : Int) else 0) +
  (match v.duration with
   | some d =>
     if d ≠ 0 then
       (if d < 90 then (-2 : Int) else 0) + (if d > 600 then -2 else 0)
     else 0
   | none => 0)

/-- The spec's retention rule: not flagged negative and (title contains the
target title, or score above 2). -/
def specRetain (v : RawVideo) (artistLower titleLower : String) : Bool :=
  !specNegFlag v &&
  (pyIn titleLower (pyLower (effTitle v)) ||
   specScoreAmended v artistLower titleLower > 2)

/-- The auto-select condition of claim C3, read on the sorted candidate
list: a lone candidate scoring at least 8, or a top candidate beating the
runner-up by at least 7 with a top score of at least 12. -/
def autoSelectCond : List Candidate → Bool
  | [c] => scoreKey c ≥ 8
  | c0 :: c1 :: _ => scoreKey c0 ≥ scoreKey c1 + 7 && scoreKey c0 ≥ 12
  | [] => false

/-- The official-priority rule as the claims state it (channel signal
includes "official" in the uploader-id, which the code does not check). -/
def claimQualifiesOfficial (v : RawVideo) (artist : String) : Bool :=
  let artistLower := pyLower artist
  let vidTitleLower := pyLower (effTitle v)
  let channelLower := pyLower (effChannel v)
  let uploaderId := pyLower (effUploaderId v)
  let posPhrase := positiveKeywords.any (fun k => pyIn k vidTitleLower)
  let officialChannel := channelLower == artistLower ||
    pyIn "official" channelLower || pyIn "vevo" channelLower ||
    pyIn "official" uploaderId || pyIn "vevo" uploaderId ||
    v.channel_is_verified
  let hasNegative := (negativeKeywords.filter
      (fun k => !(k == "audio only") && !(k == "visualizer"))).any
    (fun k => pyIn k vidTitleLower)
  posPhrase && officialChannel && !hasNegative

/-! ## Concrete inputs used by witnesses and counterexamples -/

/-- A record whose thumbnails list has a urlless last entry and a first
entry with a url: exactly the shape that fires the stray break of the
no-trust loop. -/
def vThumbBug : RawVideo :=
  { thumbnails := some [{ url := some "a" }, { url := none }] }

/-- A featureless record (all fields absent). -/
def vPlain : RawVideo := {}

/-- Qualifies under the claims' official-priority rule only through
"official" in the uploader-id, which the code ignores. -/
def vOffUploader : RawVideo :=
  { id := some "AAA", title := some "Song official video",
    channel := some "RandomChannel", uploader_id := some "OfficialUploads" }

/-- A high-scoring ordinary candidate with no positive title phrase. -/
def vStrong : RawVideo :=
  { id := some "BBB", title := some "Artist - Song", channel := some "Artist",
    channel_is_verified := true, view_count := some 20000000,
    duration := some 240 }

/-- Channel "c", uploader-id containing "official": the claims' channel
clause awards +8, the code awards nothing. -/
def vChanC5 : RawVideo :=
  { channel := some "c", uploader_id := some "OfficialX", title := some "x" }

/-- A zero duration: falsy in Python, so the code skips both duration
penalties; the claims' literal "under 90s" clause would subtract 2. -/
def vDurC5 : RawVideo := { duration := some 0 }

/-- A bare scored candidate used to instantiate the tie-break law. -/
def plainScored (i : String) (n : Int) : Candidate :=
  { id := some i, title := "", channel := "", duration := none, url := "",
    score := Score.val n, views := none, thumbnail := none }

/-- A name whose extension alone is 201 characters: "a." followed by two
hundred "b"s. -/
def c9bad : String := ⟨'a' :: '.' :: List.replicate 200 'b'⟩

/-- A worker state in which a search error has been recorded. -/
def stErr : St := { searchError := true, searches := 1 }

/-- Deferred-mode environment whose official search fails. -/
def env7 : ItemEnv :=
  { noTrust := false, interactive := false, artist := "a", title := "t",
    fileBase := "f", respOfficial := none, respFallback := some [],
    respOverride := some [], respManual := some [],
    queryDec := QueryDec.cancel, selectDec := SelectDec.skip,
    downloadOk := true }

/-- Two close-scoring candidates that escalate rather than auto-select. -/
def vAmb1 : RawVideo := { id := some "A1", title := some "t" }

def vAmb2 : RawVideo := { id := some "A2", title := some "t" }

/-- Interactive environment that reaches a selection escalation and
answers it with skip. -/
def env10 : ItemEnv :=
  { noTrust := false, interactive := true, artist := "a", title := "t",
    fileBase := "f", respOfficial := some [vAmb1, vAmb2],
    respFallback := some [], respOverride := some [], respManual := some [],
    queryDec := QueryDec.cancel, selectDec := SelectDec.skip,
    downloadOk := true }

/-- Deferred-mode environment in which every search attempt times out: each
response is exactly what `_worker_search_videos` returns on
`TimeoutExpired`. -/
def envT0 : ItemEnv :=
  { noTrust := false, interactive := false, artist := "a", title := "t",
    fileBase := "f",
    respOfficial := searchVideos ProcResult.timeoutExpired,
    respFallback := searchVideos ProcResult.timeoutExpired,
    respOverride := searchVideos ProcResult.timeoutExpired,
    respManual := searchVideos ProcResult.timeoutExpired,
    queryDec := QueryDec.cancel, selectDec := SelectDec.skip,
    downloadOk := true }

/-- Three queued review entries. -/
def re1 : ReviewEntry :=
  { filepath := "f1", reason := "select", artist := "a1", title := "t1",
    candidates := [] }

def re2 : ReviewEntry :=
  { filepath := "f2", reason := "override", artist := "a2", title := "t2",
    candidates := [] }

def re3 : ReviewEntry :=
  { filepath := "f3", reason := "search", artist := "a3", title := "t3",
    candidates := [] }

/-- The review state mid-way through the first entry: `re1` has been popped
and is in flight (its dialog is open), `re2`/`re3` are still queued. -/
def midReviewSt : ReviewSt := beginNextReviewItem (startReview [re1, re2, re3])

/-- Qualifies under the code's priority rule (channel contains "vevo") but
has no id, so the priority scan must skip it. -/
def vQualNoId : RawVideo :=
  { title := some "Song official video", channel := some "ArtistVEVO" }

/-- Qualifies under the code's priority rule with a usable id. -/
def vVevo : RawVideo :=
  { id := some "VID1", title := some "Song official video",
    channel := some "ArtistVEVO" }

/-! ## Helper lemmas -/

theorem scoringPass_override_eq_map (videos : List RawVideo) (a t : String) :
    scoringPass videos a t true = videos.map overrideCandidate := by
  induction videos with
  | nil => rfl
  | cons v vs ih => simpa [scoringPass] using ih

theorem length_insertDesc (c : Candidate) (l : List Candidate) :
    (insertDesc c l).length = l.length + 1 := by
  induction l with
  | nil => rfl
  | cons d ds ih =>
    unfold insertDesc
    split
    · simp [ih]
    · simp

theorem length_foldl_insertDesc (cs : List Candidate) :
    ∀ acc : List Candidate,
      (cs.foldl (fun acc c => insertDesc c acc) acc).length =
        acc.length + cs.length := by
  induction cs with
  | nil => intro acc; simp
  | cons c cs ih =>
    intro acc
    rw [List.foldl_cons, ih (insertDesc c acc), length_insertDesc]
    simp only [List.length_cons]
    omega

theorem length_sortByScoreDesc (cs : List Candidate) :
    (sortByScoreDesc cs).length = cs.length := by
  simpa [sortByScoreDesc] using length_foldl_insertDesc cs []

theorem mem_insertDesc {a c : Candidate} {l : List Candidate}
    (h : a ∈ insertDesc c l) : a = c ∨ a ∈ l := by
  induction l with
  | nil => simpa [insertDesc] using h
  | cons d ds ih =>
    by_cases hc : scoreKey d ≥ scoreKey c
    · rw [insertDesc, if_pos hc] at h
      rcases List.mem_cons.mp h with h1 | h1
      · exact Or.inr (by simp [h1])
      · rcases ih h1 with h2 | h2
        · exact Or.inl h2
        · exact Or.inr (by simp [h2])
    · rw [insertDesc, if_neg hc] at h
      rcases List.mem_cons.mp h with h1 | h1
      · exact Or.inl h1
      · exact Or.inr h1

theorem mem_foldl_insertDesc {a : Candidate} (cs : List Candidate) :
    ∀ acc : List Candidate,
      a ∈ cs.foldl (fun acc c => insertDesc c acc) acc →
        a ∈ acc ∨ a ∈ cs := by
  induction cs with
  | nil => intro acc h; simpa using h
  | cons c cs ih =>
    intro acc h
    simp only [List.foldl_cons] at h
    rcases ih (insertDesc c acc) h with h' | h'
    · rcases mem_insertDesc h' with h'' | h''
      · exact Or.inr (by simp [h''])
      · exact Or.inl h''
    · exact Or.inr (by simp [h'])

theorem mem_sortByScoreDesc {a : Candidate} {cs : List Candidate}
    (h : a ∈ sortByScoreDesc cs) : a ∈ cs := by
  rcases mem_foldl_insertDesc cs [] (by simpa [sortByScoreDesc] using h) with
    h' | h'
  · simp at h'
  · exact h'

/-! ## Claim theorems -/

/-- C1: the no-trust branch is claimed to return a `select` escalation
carrying every input candidate in order. The stray `break` at line 209
falsifies this: on a single video whose thumbnails list has a urlless last
entry and a url-bearing first entry, the loop exits before appending
anything and the function returns `None`; with a further plain video on
either side, only the candidates before the triggering video survive. -/
theorem c1_no_trust_break_drops_candidates :
    filterAndSelect [vThumbBug] "a" "s" true true = FilterResult.pyNone ∧
    filterAndSelect [vPlain, vThumbBug, vPlain] "a" "s" true true =
      FilterResult.needsManual "select" [mkCandidate vPlain Score.na none]
        "a" "s" := by
  constructor
  · decide
  · decide

set_option maxRecDepth 4000 in
/-- C9: the sanitizer is claimed never to return a name longer than 200
characters. On a 202-character input whose extension alone is 201
characters, the truncation slices the base with a negative bound and
returns the 201-character extension unchanged. -/
theorem c9_sanitize_exceeds_length_bound :
    (sanitizeFilename c9bad).length = 201 ∧
    200 < (sanitizeFilename c9bad).length := by
  constructor
  · decide
  · decide

/-- C4 counterexample: `vOffUploader` is the only input matching the
claims' official-priority rule (its uploader-id contains "official"), yet
with a higher-scoring ordinary candidate present the selector returns that
other candidate, not `vOffUploader` — the code does not treat "official" in
the uploader-id as an official-channel signal. -/
theorem c4_counterexample :
    claimQualifiesOfficial vOffUploader "Artist" = true ∧
    claimQualifiesOfficial vStrong "Artist" = false ∧
    qualifiesOfficial vOffUploader "Artist" = false ∧
    filterAndSelect [vOffUploader, vStrong] "Artist" "Song" false false =
      FilterResult.pyStr "BBB" ∧
    FilterResult.pyStr "BBB" ≠ FilterResult.pyStr "AAA" := by
  refine ⟨by decide, by decide, by decide, by decide, by decide⟩

/-- C5 counterexample: the claims' reference formula disagrees with the
code's score on a record whose uploader-id contains "official" (claim +8,
code +0) and on a record with a zero duration (claim -2, code 0). -/
theorem c5_counterexample :
    (scoreVideo vChanC5 "a" "t").1 ≠ specScoreClaim vChanC5 "a" "t" ∧
    (scoreVideo vDurC5 "a" "t").1 ≠ specScoreClaim vDurC5 "a" "t" := by
  constructor
  · decide
  · decide

/-- C8 counterexample: a search timeout produces exactly the value of a
successful zero-result search and not the transport-failure value, and a
run whose searches all time out ends in the Needs Review path, not the
Error path. -/
theorem c8_counterexample :
    searchVideos ProcResult.timeoutExpired =
      searchVideos (ProcResult.completed 0 []) ∧
    searchVideos ProcResult.timeoutExpired ≠
      searchVideos (ProcResult.completed 1 []) ∧
    runItem envT0 = ItemOutcome.status STATUS_NEEDS_REVIEW ∧
    STATUS_NEEDS_REVIEW ≠ STATUS_ERROR := by
  refine ⟨by decide, by decide, by decide, by decide⟩

/-- C2 counterexample: with three queued entries and the first in flight, a
stop request empties the queue instead of leaving the two un-popped entries
intact. -/
theorem c2_counterexample :
    midReviewSt.currentItem = some re1 ∧
    midReviewSt.reviewList = [re2, re3] ∧
    (stopDuringReview midReviewSt).reviewList = [] ∧
    (stopDuringReview midReviewSt).reviewList ≠ [re2, re3] := by
  refine ⟨by decide, by decide, by decide, by decide⟩

/-- C6: an override request never auto-selects: it returns `None`
(exhausted) exactly on empty input, and otherwise escalates with reason
`override` carrying every input candidate, unfiltered and in order. -/
theorem c6_override_never_selects (videos : List RawVideo)
    (artist title : String) :
    (∀ s, filterAndSelect videos artist title true false ≠
      FilterResult.pyStr s) ∧
    (filterAndSelect videos artist title true false = FilterResult.pyNone ↔
      videos = []) ∧
    (videos ≠ [] →
      filterAndSelect videos artist title true false =
        FilterResult.needsManual "override" (videos.map overrideCandidate)
          artist title) := by
  cases videos with
  | nil =>
    refine ⟨fun s => by simp [filterAndSelect], by simp [filterAndSelect],
      fun h => absurd rfl h⟩
  | cons v vs =>
    have hmain : filterAndSelect (v :: vs) artist title true false =
        FilterResult.needsManual "override"
          ((v :: vs).map overrideCandidate) artist title := by
      simp [filterAndSelect, scoredDecision, scoringPass_override_eq_map]
    refine ⟨fun s => by simp [hmain], by simp [hmain], fun _ => hmain⟩

/-- C6 witness: a concrete one-candidate override request escalates with
reason `override` and that candidate. -/
theorem c6_witness :
    filterAndSelect [vPlain] "Artist" "Song" true false =
      FilterResult.needsManual "override" [overrideCandidate vPlain]
        "Artist" "Song" :=
  (c6_override_never_selects [vPlain] "Artist" "Song").2.2 (by decide)

/-- C4 (amended): with no override and no no-trust mode, the selector scans
candidates in order and immediately returns the id of the first candidate
satisfying the code's priority rule (positive title phrase; channel equal
to the artist, or channel containing "official"/"vevo", or uploader-id
containing "vevo", or verified; no disqualifying negative keyword) that has
a truthy id — qualifying candidates without an id are skipped, and later
candidates cannot override the short-circuit regardless of score. -/
theorem c4_priority_short_circuit (pre post : List RawVideo) (v : RawVideo)
    (artist title : String) (i : String)
    (hpre : ∀ u ∈ pre, qualifiesOfficial u artist = true →
      optStrTruthy u.id = false)
    (hq : qualifiesOfficial v artist = true)
    (hid : v.id = some i) (hi : strTruthy i = true) :
    filterAndSelect (pre ++ v :: post) artist title false false =
      FilterResult.pyStr i := by
  have hscan : ∀ pre' : List RawVideo,
      (∀ u ∈ pre', qualifiesOfficial u artist = true →
        optStrTruthy u.id = false) →
      priorityScan (pre' ++ v :: post) artist = some i := by
    intro pre'
    induction pre' with
    | nil => intro _; simp [priorityScan, hq, hid, hi]
    | cons u us ih =>
      intro hp
      have hrest : ∀ u' ∈ us, qualifiesOfficial u' artist = true →
          optStrTruthy u'.id = false :=
        fun u' hm => hp u' (by simp [hm])
      by_cases hqu : qualifiesOfficial u artist = true
      · have hfalse := hp u (by simp) hqu
        cases hid2 : u.id with
        | none =>
          simpa [priorityScan, hqu, hid2] using ih hrest
        | some j =>
          have hj : strTruthy j = false := by
            rw [hid2] at hfalse
            simpa [optStrTruthy] using hfalse
          simpa [priorityScan, hqu, hid2, hj] using ih hrest
      · have hqu' : qualifiesOfficial u artist = false :=
          Bool.eq_false_iff.mpr hqu
        simpa [priorityScan, hqu'] using ih hrest
  have hne : (pre ++ v :: post).isEmpty = false := by cases pre <;> simp
  simp [filterAndSelect, hne, hscan pre hpre]

/-- C4 witness: a qualifying candidate without an id is skipped, the next
qualifying candidate's id is returned immediately, and a later high-scoring
candidate does not matter. -/
theorem c4_witness :
    filterAndSelect [vQualNoId, vVevo, vStrong] "Artist" "Song" false false =
      FilterResult.pyStr "VID1" :=
  c4_priority_short_circuit [vQualNoId] [vStrong] vVevo "Artist" "Song"
    "VID1" (by decide) (by decide) (by decide) (by decide)

/-- C3: in the non-override scoring path, given that every retained
candidate has a truthy id, the decision on the retained set auto-selects
exactly when the stably descending-sorted list is a lone candidate scoring
at least 8, or its top candidate beats the runner-up by at least 7 while
scoring at least 12; in every other nonempty case it escalates with reason
`select` and the sorted list. -/
theorem c3_auto_select_tie_break (cs : List Candidate)
    (artist title : String)
    (hid : ∀ c ∈ cs, optStrTruthy c.id = true) :
    ((∃ s, scoredDecision cs false artist title = FilterResult.pyStr s) ↔
      autoSelectCond (sortByScoreDesc cs) = true) ∧
    (cs ≠ [] → autoSelectCond (sortByScoreDesc cs) = false →
      scoredDecision cs false artist title =
        FilterResult.needsManual "select" (sortByScoreDesc cs) artist
          title) := by
  by_cases hcs : cs = []
  · subst hcs
    exact ⟨by simp [scoredDecision, sortByScoreDesc, autoSelectCond],
      fun h => absurd rfl h⟩
  · have hcs' : cs.isEmpty = false := by
      cases cs with
      | nil => exact absurd rfl hcs
      | cons a l => rfl
    cases hsort : sortByScoreDesc cs with
    | nil =>
      exfalso
      have hlen := length_sortByScoreDesc cs
      rw [hsort] at hlen
      simp at hlen
      exact hcs (List.length_eq_zero.mp hlen.symm)
    | cons c0 tl =>
      have hc0 : c0 ∈ cs :=
        mem_sortByScoreDesc (by rw [hsort]; exact List.mem_cons_self _ _)
      have hidc := hid c0 hc0
      obtain ⟨s0, hs0, hs0t⟩ : ∃ s, c0.id = some s ∧ strTruthy s = true := by
        cases hcid : c0.id with
        | none => rw [hcid] at hidc; simp [optStrTruthy] at hidc
        | some j =>
          refine ⟨j, rfl, ?_⟩
          rw [hcid] at hidc
          simpa [optStrTruthy] using hidc
      cases tl with
      | nil =>
        have hred : scoredDecision cs false artist title =
            if scoreKey c0 ≥ 8 then idResult c0
            else FilterResult.needsManual "select" [c0] artist title := by
          simp [scoredDecision, hcs', hsort]
        by_cases h8 : scoreKey c0 ≥ 8
        · refine ⟨?_, ?_⟩
          · rw [hred, if_pos h8]
            simp [autoSelectCond, h8, idResult, hs0]
          · intro _ hfalse
            simp [autoSelectCond, h8] at hfalse
        · refine ⟨?_, ?_⟩
          · rw [hred, if_neg h8]
            simp [autoSelectCond, h8]
          · intro _ _
            rw [hred, if_neg h8]
      | cons c1 rest =>
        have hred : scoredDecision cs false artist title =
            if scoreKey c0 ≥ scoreKey c1 + 7 && scoreKey c0 ≥ 12 then
              idResult c0
            else
              FilterResult.needsManual "select" (c0 :: c1 :: rest) artist
                title := by
          simp [scoredDecision, hcs', hsort]
        by_cases h7 : scoreKey c0 ≥ scoreKey c1 + 7
        · by_cases h12 : scoreKey c0 ≥ 12
          · refine ⟨?_, ?_⟩
            · rw [hred]
              simp [autoSelectCond, h7, h12, idResult, hs0]
            · intro _ hfalse
              simp [autoSelectCond, h7, h12] at hfalse
          · refine ⟨?_, ?_⟩
            · rw [hred]
              simp [autoSelectCond, h7, h12]
            · intro _ _
              rw [hred]
              simp [h7, h12]
        · refine ⟨?_, ?_⟩
          · rw [hred]
            simp [autoSelectCond, h7]
          · intro _ _
            rw [hred]
            simp [h7]

/-- C3 witness: the general law applied to the two 12-and-5 candidates, and
the claim's four concrete instances (12/5 selects the top, 12/6 escalates,
a lone 8 selects, a lone 7 escalates). -/
theorem c3_witness :
    ((∃ s, scoredDecision [plainScored "X" 12, plainScored "Y" 5] false "a"
        "t" = FilterResult.pyStr s) ↔
      autoSelectCond
        (sortByScoreDesc [plainScored "X" 12, plainScored "Y" 5]) = true) ∧
    scoredDecision [plainScored "X" 12, plainScored "Y" 5] false "a" "t" =
      FilterResult.pyStr "X" ∧
    scoredDecision [plainScored "X" 12, plainScored "Y" 6] false "a" "t" =
      FilterResult.needsManual "select"
        [plainScored "X" 12, plainScored "Y" 6] "a" "t" ∧
    scoredDecision [plainScored "X" 8] false "a" "t" =
      FilterResult.pyStr "X" ∧
    scoredDecision [plainScored "X" 7] false "a" "t" =
      FilterResult.needsManual "select" [plainScored "X" 7] "a" "t" :=
  ⟨(c3_auto_select_tie_break [plainScored "X" 12, plainScored "Y" 5] "a" "t"
      (by decide)).1,
   by decide, by decide, by decide, by decide⟩

/-- C2 (amended): processing k review items removes exactly the first k
entries from the queue, whatever final status each item resolves to (an
entry is removed when popped and never re-enqueued); a stop request while
an entry is in flight marks that entry Skipped (Manual) but also clears the
remaining queue (rather than leaving it intact). -/
theorem c2_review_queue_amended :
    (∀ (dec : ReviewEntry → String) (entries : List ReviewEntry) (k : Nat),
      ((processNextReviewItem dec)^[k] (startReview entries)).reviewList =
        entries.drop k) ∧
    (∀ (st : ReviewSt) (e : ReviewEntry), st.isReviewing = true →
      st.currentItem = some e → strTruthy e.filepath = true →
      stopDuringReview st =
        { st with
          isReviewing := false, reviewList := [], currentItem := none,
          statuses :=
            (e.filepath, STATUS_SKIPPED_MANUAL) :: st.statuses }) := by
  constructor
  · intro dec entries k
    suffices h :
        ((processNextReviewItem dec)^[k] (startReview entries)).reviewList =
          entries.drop k ∧
        ((processNextReviewItem dec)^[k] (startReview entries)).currentItem =
          none ∧
        (((processNextReviewItem dec)^[k]
            (startReview entries)).isReviewing = false →
          entries.drop k = []) by
      exact h.1
    induction k with
    | zero =>
      refine ⟨by simp [startReview], by simp [startReview], ?_⟩
      intro h0
      simp [startReview] at h0
    | succ k ih =>
      obtain ⟨ih1, ih2, ih3⟩ := ih
      rw [Function.iterate_succ_apply'] at *
      set st := (processNextReviewItem dec)^[k] (startReview entries)
        with hstdef
      by_cases hrev : st.isReviewing = true
      · cases hlist : st.reviewList with
        | nil =>
          have hstep : processNextReviewItem dec st =
              { st with isReviewing := false } := by
            simp [processNextReviewItem, beginNextReviewItem,
              finishReviewItem, hrev, hlist, ih2]
          have hdk : entries.drop k = [] := by rw [← ih1, hlist]
          have hdk1 : entries.drop (k + 1) = [] :=
            List.drop_eq_nil_iff.mpr
              (by have := List.drop_eq_nil_iff.mp hdk; omega)
          exact ⟨by simp [hstep, hlist, hdk1], by simp [hstep, ih2],
            fun _ => hdk1⟩
        | cons e rest =>
          have hstep : processNextReviewItem dec st =
              { st with
                reviewList := rest, currentItem := none,
                statuses := (e.filepath, dec e) ::
                  (e.filepath, STATUS_REVIEWING) :: st.statuses } := by
            simp [processNextReviewItem, beginNextReviewItem,
              finishReviewItem, hrev, hlist]
          have hke : entries.drop k = e :: rest := by rw [← ih1, hlist]
          have hrest : entries.drop (k + 1) = rest := by
            rw [← List.drop_drop, hke]
            rfl
          refine ⟨by simp [hstep, hrest], by simp [hstep], ?_⟩
          intro h0
          rw [hstep] at h0
          simp [hrev] at h0
      · have hrev' : st.isReviewing = false := by simpa using hrev
        have hstep : processNextReviewItem dec st = st := by
          simp [processNextReviewItem, beginNextReviewItem,
            finishReviewItem, hrev', ih2]
        have hdk : entries.drop k = [] := ih3 hrev'
        have hdk1 : entries.drop (k + 1) = [] :=
          List.drop_eq_nil_iff.mpr
            (by have := List.drop_eq_nil_iff.mp hdk; omega)
        exact ⟨by rw [hstep, ih1, hdk, hdk1], by rw [hstep]; exact ih2,
          fun _ => hdk1⟩
  · intro st e h1 h2 h3
    simp [stopDuringReview, h1, h2, h3]

/-- C2 witness: the stop law applied to the mid-review state with `re1` in
flight. -/
theorem c2_witness :
    stopDuringReview midReviewSt =
      { midReviewSt with
        isReviewing := false, reviewList := [], currentItem := none,
        statuses :=
          ("f1", STATUS_SKIPPED_MANUAL) :: midReviewSt.statuses } :=
  c2_review_queue_amended.2 midReviewSt re1 (by decide) (by decide)
    (by decide)

/-- C10: in interactive mode, answering a pending candidate-selection
escalation with skip (a `None` decision) when no search error occurred
leaves nothing selected and no status set, so the final-status fallback
records the Exhausted status (`STATUS_FAILED_ALL`) — not the
Skipped-Manual status. -/
theorem c10_interactive_skip_records_exhausted (env : ItemEnv) (st : St)
    (hint : env.interactive = true) (hdec : env.selectDec = SelectDec.skip)
    (hnm : st.needsManual = true) (hsel : st.selected = none)
    (hfs : st.finalStatus = none) (hse : st.searchError = false)
    (hi : st.interrupted = false) :
    finalize env (stepHandler env st) =
      ItemOutcome.status STATUS_FAILED_ALL ∧
    STATUS_FAILED_ALL ≠ STATUS_SKIPPED_MANUAL := by
  have hstep : stepHandler env st = st := by
    simp [stepHandler, hi, hnm, hsel, hfs, hint, hdec]
  refine ⟨?_, by decide⟩
  rw [hstep]
  simp [finalize, hi, hsel, hfs, hse, optStrTruthy]

/-- C10 witness: a concrete interactive run whose official search returns
two close-scoring candidates escalates, the human skips, and the item ends
Exhausted. -/
theorem c10_witness :
    finalize env10 (stepHandler env10 (pipe3St env10)) =
      ItemOutcome.status STATUS_FAILED_ALL ∧
    STATUS_FAILED_ALL ≠ STATUS_SKIPPED_MANUAL :=
  c10_interactive_skip_records_exhausted env10 (pipe3St env10) rfl rfl
    (by decide) (by decide) (by decide) (by decide) (by decide)

theorem step2_id_of_searchError (env : ItemEnv) (st : St)
    (h : st.searchError = true) : step2 env st = st := by
  simp [step2, h]

theorem step3_id_of_searchError (env : ItemEnv) (st : St)
    (h : st.searchError = true) : step3 env st = st := by
  simp [step3, h]

theorem stepHandler_id_of_not_needsManual (env : ItemEnv) (st : St)
    (h : st.needsManual = false) : stepHandler env st = st := by
  simp [stepHandler, h]

theorem stepHandler_searchError_eq (env : ItemEnv) (st : St) :
    (stepHandler env st).searchError = st.searchError := by
  unfold stepHandler
  repeat' split
  all_goals rfl

theorem step1_interrupted_eq (env : ItemEnv) :
    (step1 env initSt).interrupted = false := by
  unfold step1
  repeat' split
  all_goals rfl

theorem step1_finalStatus_none (env : ItemEnv) (h : env.noTrust = false) :
    (step1 env initSt).finalStatus = none := by
  unfold step1
  rw [h]
  repeat' split
  all_goals first | rfl | simp_all

theorem step2_finalStatus_eq (env : ItemEnv) (st : St) :
    (step2 env st).finalStatus = st.finalStatus := by
  unfold step2
  repeat' split
  all_goals rfl

theorem step1_err (env : ItemEnv)
    (h : (step1 env initSt).searchError = true) :
    step1 env initSt = { initSt with searchError := true, searches := 1 } := by
  cases hro : env.respOfficial with
  | none => simp [step1, hro, initSt]
  | some vids =>
    exfalso
    have hfalse : (step1 env initSt).searchError = false := by
      unfold step1
      rw [hro]
      repeat' split
      all_goals first | rfl | simp_all
    rw [hfalse] at h
    exact absurd h (by simp)

theorem step2_err_char (env : ItemEnv) (st : St)
    (h1 : st.searchError = false) (h2 : (step2 env st).searchError = true) :
    step2 env st =
      { st with searchError := true, searches := st.searches + 1 } ∧
    st.selected = none ∧ st.needsManual = false ∧ env.noTrust = false ∧
    st.interrupted = false := by
  by_cases hi : st.interrupted = true
  · have hid : step2 env st = st := by simp [step2, hi]
    rw [hid, h1] at h2
    exact absurd h2 (by simp)
  · have hi' : st.interrupted = false := by simpa using hi
    by_cases hg : (st.selected.isNone && !st.needsManual && !st.searchError &&
        !env.noTrust) = true
    · have hparts := hg
      simp only [Bool.and_eq_true, Bool.not_eq_true',
        Option.isNone_iff_eq_none] at hparts
      obtain ⟨⟨⟨hsel, hnm⟩, _⟩, hnt⟩ := hparts
      cases hrf : env.respFallback with
      | none => exact ⟨by simp [step2, hi', hg, hrf], hsel, hnm, hnt, hi'⟩
      | some vids =>
        exfalso
        have hpres : (step2 env st).searchError = st.searchError := by
          unfold step2
          rw [hrf]
          repeat' split
          all_goals first | rfl | simp_all
        rw [hpres, h1] at h2
        exact absurd h2 (by simp)
    · have hg' : (st.selected.isNone && !st.needsManual && !st.searchError &&
          !env.noTrust) = false := by simpa using hg
      have hid : step2 env st = st := by simp [step2, hi', hg']
      rw [hid, h1] at h2
      exact absurd h2 (by simp)

theorem step3_err_char (env : ItemEnv) (st : St)
    (h1 : st.searchError = false) (h2 : (step3 env st).searchError = true) :
    step3 env st =
      { st with searchError := true, searches := st.searches + 1 } ∧
    st.selected = none ∧ st.needsManual = false ∧ env.noTrust = false ∧
    st.interrupted = false := by
  by_cases hi : st.interrupted = true
  · have hid : step3 env st = st := by simp [step3, hi]
    rw [hid, h1] at h2
    exact absurd h2 (by simp)
  · have hi' : st.interrupted = false := by simpa using hi
    by_cases hg : (st.selected.isNone && !st.needsManual && !st.searchError &&
        !env.noTrust) = true
    · have hparts := hg
      simp only [Bool.and_eq_true, Bool.not_eq_true',
        Option.isNone_iff_eq_none] at hparts
      obtain ⟨⟨⟨hsel, hnm⟩, _⟩, hnt⟩ := hparts
      by_cases hvf : st.videosFound = true
      · cases hro : env.respOverride with
        | none =>
          exact ⟨by simp [step3, hi', hg, hvf, hro], hsel, hnm, hnt, hi'⟩
        | some vids =>
          exfalso
          have hpres : (step3 env st).searchError = st.searchError := by
            unfold step3
            rw [hro]
            repeat' split
            all_goals first | rfl | simp_all
          rw [hpres, h1] at h2
          exact absurd h2 (by simp)
      · exfalso
        have hvf' : st.videosFound = false := by simpa using hvf
        have hpres : (step3 env st).searchError = st.searchError := by
          unfold step3
          rw [hvf']
          repeat' split
          all_goals first | rfl | simp_all [apply_ite St.searchError]
        rw [hpres, h1] at h2
        exact absurd h2 (by simp)
    · have hg' : (st.selected.isNone && !st.needsManual && !st.searchError &&
          !env.noTrust) = false := by simpa using hg
      have hid : step3 env st = st := by simp [step3, hi', hg']
      rw [hid, h1] at h2
      exact absurd h2 (by simp)

/-- C7: a search transport failure is sticky — once the search-error flag
is set, the fallback and override attempts do nothing at all (no state
change, no further search invocation), and a run that ends with the flag
set records the Error status, not the Exhausted status. -/
theorem c7_sticky_search_error :
    (∀ (env : ItemEnv) (st : St), st.searchError = true →
      step2 env st = st ∧ step3 env st = st) ∧
    (∀ env : ItemEnv, (pipeSt env).searchError = true →
      runItem env = ItemOutcome.status STATUS_ERROR) := by
  constructor
  · intro env st h
    exact ⟨step2_id_of_searchError env st h, step3_id_of_searchError env st h⟩
  · intro env h
    by_cases h1 : (step1 env initSt).searchError = true
    · have hE := step1_err env h1
      show finalize env
        (stepHandler env (step3 env (step2 env (step1 env initSt)))) = _
      rw [hE, step2_id_of_searchError env _ rfl,
        step3_id_of_searchError env _ rfl,
        stepHandler_id_of_not_needsManual env _ rfl]
      rfl
    · have h1' : (step1 env initSt).searchError = false := by simpa using h1
      by_cases h2 : (step2 env (step1 env initSt)).searchError = true
      · obtain ⟨heq, hsel, hnm, hnt, hint⟩ := step2_err_char env _ h1' h2
        have hfs1 : (step1 env initSt).finalStatus = none :=
          step1_finalStatus_none env hnt
        have h3id : step3 env (step2 env (step1 env initSt)) =
            step2 env (step1 env initSt) :=
          step3_id_of_searchError env _ h2
        have hnm2 : (step2 env (step1 env initSt)).needsManual = false := by
          rw [heq]; exact hnm
        have hH : stepHandler env (step2 env (step1 env initSt)) =
            step2 env (step1 env initSt) :=
          stepHandler_id_of_not_needsManual env _ hnm2
        show finalize env
          (stepHandler env (step3 env (step2 env (step1 env initSt)))) = _
        rw [h3id, hH, heq]
        simp [finalize, hint, hsel, hfs1, optStrTruthy]
      · have h2' : (step2 env (step1 env initSt)).searchError = false := by
          simpa using h2
        by_cases h3 : (step3 env (step2 env (step1 env initSt))).searchError =
            true
        · obtain ⟨heq, hsel2, hnm2, hnt, hint2⟩ := step3_err_char env _ h2' h3
          have hfs2 : (step2 env (step1 env initSt)).finalStatus = none := by
            rw [step2_finalStatus_eq]
            exact step1_finalStatus_none env hnt
          have hnm3 : (step3 env (step2 env (step1 env initSt))).needsManual =
              false := by
            rw [heq]; exact hnm2
          have hH := stepHandler_id_of_not_needsManual env _ hnm3
          show finalize env
            (stepHandler env (step3 env (step2 env (step1 env initSt)))) = _
          rw [hH, heq]
          simp [finalize, hint2, hsel2, hfs2, optStrTruthy]
        · exfalso
          have hpipe : (pipeSt env).searchError =
              (pipe3St env).searchError :=
            stepHandler_searchError_eq env (pipe3St env)
          rw [hpipe] at h
          exact h3 h

/-- C7 witness: the stickiness and the final Error status on a concrete
run whose official search fails, and the step no-ops on a concrete
errored state. -/
theorem c7_witness :
    step2 env7 stErr = stErr ∧ step3 env7 stErr = stErr ∧
    runItem env7 = ItemOutcome.status STATUS_ERROR :=
  ⟨(c7_sticky_search_error.1 env7 stErr rfl).1,
   (c7_sticky_search_error.1 env7 stErr rfl).2,
   c7_sticky_search_error.2 env7 (by decide)⟩

/-- C8 (amended): a search timeout is classified as a successful search
with zero results — the empty list, not the transport-failure value — and
feeding that value to the pipeline takes the zero-results path (one search
recorded, no state change, no search error). -/
theorem c8_timeout_is_zero_results :
    searchVideos ProcResult.timeoutExpired = some [] ∧
    searchVideos ProcResult.timeoutExpired ≠ none ∧
    (∀ env : ItemEnv,
      env.respOfficial = searchVideos ProcResult.timeoutExpired →
      step1 env initSt = { initSt with searches := 1 }) := by
  refine ⟨rfl, by decide, ?_⟩
  intro env h
  have h' : env.respOfficial = some [] := h
  simp [step1, h', initSt]

/-- C8 witness: the zero-results behavior on the all-timeouts
environment. -/
theorem c8_witness :
    step1 envT0 initSt = { initSt with searches := 1 } :=
  c8_timeout_is_zero_results.2.2 envT0 rfl

theorem desc_guard (d : String) :
    (strTruthy d && descriptionNegatives.any (fun k => pyIn k d)) =
      descriptionNegatives.any (fun k => pyIn k d) := by
  by_cases h : d = ""
  · subst h; decide
  · have ht : strTruthy d = true := by simp [strTruthy, h]
    rw [ht, Bool.true_and]

theorem scoreArith (N P DC : Bool) (t4 t5 t6 t7 t8 : Int) :
    (let s1 : Int := if N then 0 - (if P then 5 else 20) else 0
     let s2 := s1 - (if DC then 5 else 0)
     let s3 := s2 + (if P then 10 else 0)
     let s4 := s3 + t4
     let s5 := s4 + t5
     let s6 := s5 + t6
     let s7 := s6 + t7
     s7 + t8) =
    (if N then (if P then (-5 : Int) else -20) else 0) +
    (if DC then (-5 : Int) else 0) +
    (if P then (10 : Int) else 0) + t4 + t5 + t6 + t7 + t8 := by
  cases N <;> cases P <;> cases DC <;> simp

theorem scoreVideo_fst_guarded (v : RawVideo) (aL tL : String) :
    (scoreVideo v aL tL).1 = guardedScoreSum v aL tL :=
  scoreArith
    (negativeKeywords.any (fun k => pyIn k (pyLower (effTitle v))))
    (positiveKeywords.any (fun k => pyIn k (pyLower (effTitle v))))
    (!(negativeKeywords.any (fun k => pyIn k (pyLower (effTitle v)))) &&
      strTruthy (match v.description with
        | some d => pyLower d
        | none => "") &&
      descriptionNegatives.any (fun k => pyIn k
        (match v.description with
         | some d => pyLower d
         | none => "")))
    (if pyLower (effChannel v) == aL ||
        pyIn "official" (pyLower (effChannel v)) ||
        pyIn "vevo" (pyLower (effChannel v)) ||
        pyIn "vevo" (pyLower (effUploaderId v)) then (8 : Int)
     else if pyIn aL (pyLower (effChannel v)) then 5
     else if pyIn "topic" (pyLower (effChannel v)) ||
        pyIn "various artists" (pyLower (effChannel v)) then -5
     else 0)
    (if pyIn aL (pyLower (effTitle v)) && pyIn tL (pyLower (effTitle v)) then
       (4 : Int)
     else if pyIn tL (pyLower (effTitle v)) then 2
     else 0)
    (match v.view_count with
     | some vc =>
       if vc ≠ 0 then
         if vc > 10000000 then (3 : Int)
         else if vc > 1000000 then 2
         else if vc > 100000 then 1
         else 0
       else 0
     | none => 0)
    (if v.channel_is_verified then (5 : Int) else 0)
    (match v.duration with
     | some d =>
       if d ≠ 0 then
         (if d < 90 then (-2 : Int) else 0) + (if d > 600 then -2 else 0)
       else 0
     | none => 0)

theorem specScoreAmended_eq_guarded (v : RawVideo) (aL tL : String) :
    specScoreAmended v aL tL = guardedScoreSum v aL tL := by
  have h2 : specDescPenalty v =
      (if (!(negativeKeywords.any (fun k => pyIn k (pyLower (effTitle v)))) &&
          strTruthy (match v.description with
            | some d => pyLower d
            | none => "") &&
          descriptionNegatives.any (fun k => pyIn k
            (match v.description with
             | some d => pyLower d
             | none => ""))) then (-5 : Int) else 0) := by
    cases hd : v.description with
    | none => simp [specDescPenalty, specDescHit, strTruthy, hd]
    | some d =>
      simp only [specDescPenalty, specDescHit, specNegHit, hd]
      rw [Bool.and_assoc, desc_guard]
  have h6 : specViewBonus v =
      (match v.view_count with
       | some vc =>
         if vc ≠ 0 then
           if vc > 10000000 then (3 : Int)
           else if vc > 1000000 then 2
           else if vc > 100000 then 1
           else 0
         else 0
       | none => 0) := by
    cases hv : v.view_count with
    | none => simp [specViewBonus, hv]
    | some vc =>
      simp only [specViewBonus, hv]
      split_ifs <;> omega
  have h8 : specDurationPenalty v =
      (match v.duration with
       | some d =>
         if d ≠ 0 then
           (if d < 90 then (-2 : Int) else 0) + (if d > 600 then -2 else 0)
         else 0
       | none => 0) := by
    cases hd : v.duration with
    | none => simp [specDurationPenalty, hd]
    | some d =>
      simp only [specDurationPenalty, hd]
      split_ifs <;> omega
  show specNegPenalty v + specDescPenalty v + specPosBonus v +
    specChannelBonus v aL + specTitleBonus v aL tL + specViewBonus v +
    specVerifiedBonus v + specDurationPenalty v = guardedScoreSum v aL tL
  rw [h2, h6, h8]
  rfl

theorem flagArith (N SD AD : Bool) :
    (if !N && SD && AD then true else N) = (N || (SD && AD)) := by
  cases N <;> cases SD <;> cases AD <;> rfl

theorem scoreVideo_snd_flag (v : RawVideo) (aL tL : String) :
    (scoreVideo v aL tL).2 = specNegFlag v := by
  have h : (scoreVideo v aL tL).2 =
      ((negativeKeywords.any (fun k => pyIn k (pyLower (effTitle v)))) ||
        (strTruthy (match v.description with
          | some d => pyLower d
          | none => "") &&
         descriptionNegatives.any (fun k => pyIn k
          (match v.description with
           | some d => pyLower d
           | none => "")))) :=
    flagArith
      (negativeKeywords.any (fun k => pyIn k (pyLower (effTitle v))))
      (strTruthy (match v.description with
        | some d => pyLower d
        | none => ""))
      (descriptionNegatives.any (fun k => pyIn k
        (match v.description with
         | some d => pyLower d
         | none => "")))
  rw [h]
  cases hd : v.description with
  | none => simp [specNegFlag, specNegHit, specDescHit, hd, strTruthy]
  | some d =>
    simp only [specNegFlag, specNegHit, specDescHit, hd, desc_guard]

theorem scoreVideo_fst_spec (v : RawVideo) (aL tL : String) :
    (scoreVideo v aL tL).1 = specScoreAmended v aL tL :=
  (scoreVideo_fst_guarded v aL tL).trans
    (specScoreAmended_eq_guarded v aL tL).symm

theorem retain_eq_spec (v : RawVideo) (aL tL : String) :
    retainVideo v aL tL = specRetain v aL tL := by
  simp only [retainVideo, specRetain, scoreVideo_fst_spec, scoreVideo_snd_flag]

/-- C5 (amended): the code's per-candidate score and negativity flag equal
the claim's reference formula with the channel clause and the zero-duration
reading fixed to match the code; retention keeps exactly the non-negative
candidates whose title contains the target title or whose score exceeds 2,
and an override request retains every candidate unconditionally with score
`'N/A'`. -/
theorem c5_scoring_formula_amended :
    (∀ (v : RawVideo) (aL tL : String),
      (scoreVideo v aL tL).1 = specScoreAmended v aL tL) ∧
    (∀ (v : RawVideo) (aL tL : String),
      (scoreVideo v aL tL).2 = specNegFlag v) ∧
    (∀ (videos : List RawVideo) (artist title : String),
      scoringPass videos artist title false =
        videos.filterMap (fun v =>
          if specRetain v (pyLower artist) (pyLower title) then
            some (mkCandidate v
              (Score.val
                (specScoreAmended v (pyLower artist) (pyLower title)))
              (resolveThumb v))
          else none)) ∧
    (∀ (videos : List RawVideo) (artist title : String),
      scoringPass videos artist title true = videos.map overrideCandidate) := by
  refine ⟨scoreVideo_fst_spec, scoreVideo_snd_flag, ?_,
    scoringPass_override_eq_map⟩
  intro videos artist title
  simp only [scoringPass]
  congr 1
  funext v
  simp [retain_eq_spec, scoreVideo_fst_spec]
